import Mathlib

/-!
Shallow embedding of the Stage 0 Profile API (src/main.py).

The service has one non-trivial function, fetch_cat_fact, which performs a
single upstream GET with a timeout and maps every failure mode to a fixed
fallback string, and one endpoint handler, get_profile, which assembles the
four-field profile response.  The Python exception control flow is embedded
as a case analysis over an explicit enumeration of upstream outcomes: the
awaited client.get either times out, fails with some other exception, or
delivers a response carrying a status code and a body; the body either
parses as JSON or is malformed.
-/

/-- JSON values, as produced by response.json in Python: objects become
dicts (embedded as association lists), and any value can appear. -/
inductive Json where
  | null : Json
  | bool : Bool → Json
  | num : Int → Json
  | str : String → Json
  | arr : List Json → Json
  | obj : List (String × Json) → Json

/-- Python dict lookup on a parsed JSON object: first binding of the key.
dict.get returns the stored value even when it is None; the default is used
only when the key is absent, which `Option` captures. -/
def lookupField : List (String × Json) → String → Option Json
  | [], _ => none
  | (k, v) :: rest, key => if k = key then some v else lookupField rest key

/-- Lookup of a top-level key in a JSON value; non-objects have no keys
(in Python, .get on a non-dict raises AttributeError). -/
def jsonLookup : Json → String → Option Json
  | .obj fields, key => lookupField fields key
  | _, _ => none

/-- The body delivered with an upstream HTTP response: either it parses as
JSON (response.json() succeeds) or it is malformed (response.json() raises,
caught by the generic except clause). -/
inductive Body where
  | json : Json → Body
  | malformed : Body

/-- Outcome of the awaited client.get call in fetch_cat_fact:
httpx.TimeoutException, some other exception before a response exists
(network error), or a delivered response with a status code and a body. -/
inductive Upstream where
  | timeout : Upstream
  | netError : Upstream
  | response : Nat → Body → Upstream

/-- httpx response.raise_for_status raises HTTPStatusError exactly when the
status is not a success status, i.e. not in 200..299. -/
def is2xx (status : Nat) : Bool := 200 ≤ status && status < 300

/-- Embedding of fetch_cat_fact (src/main.py lines 43-70).  The try body
runs client.get, then raise_for_status, then response.json(), then
data.get with a default.  Each except clause becomes a branch:
TimeoutException yields the timeout fallback; HTTPStatusError (raised by
raise_for_status on a non-2xx status) yields the API-error fallback; every
other exception (network failure, malformed body, .get on a non-dict)
yields the network-error fallback.  The value of a present "fact" key is
returned unchanged, whatever JSON value it is; Python does not enforce the
declared str return type. -/
def fetch_cat_fact : Upstream → Json
  | .timeout => .str "Cat fact unavailable: API timeout"
  | .netError => .str "Cat fact unavailable: Network error"
  | .response status body =>
    if is2xx status then
      match body with
      | .json (.obj fields) =>
        match lookupField fields "fact" with
        | some v => v
        | none => .str "No cat fact available"
      | .json _ => .str "Cat fact unavailable: Network error"
      | .malformed => .str "Cat fact unavailable: Network error"
    else .str "Cat fact unavailable: API error"

/-- The configured profile values, read once from the environment
(src/main.py lines 37-39). -/
structure Config where
  USER_EMAIL : String
  USER_NAME : String
  USER_STACK : String
deriving DecidableEq, Repr

/-- The default configuration used when no environment overrides exist. -/
def defaultConfig : Config :=
  { USER_EMAIL := "muibiyusuf@hotmail.com"
    USER_NAME := "Yusuf Muibi"
    USER_STACK := "Python/FastAPI" }

/-- A UTC clock reading as returned by datetime.now(timezone.utc): the
seven broken-down fields of an aware datetime. -/
structure DateTime where
  year : Nat
  month : Nat
  day : Nat
  hour : Nat
  minute : Nat
  second : Nat
  microsecond : Nat
deriving DecidableEq, Repr

/-- The result the framework sends for the /me handler: either the
JSONResponse built on the success path (status 200 and a JSON body), or the
HTTPException raised by the except clause, which FastAPI renders as the
given status with a detail body. -/
inductive HttpResult where
  | ok : Nat → Json → HttpResult
  | httpError : Nat → String → HttpResult

/-- The wire-level rendering of an HttpResult: an HTTPException with a
detail string becomes a JSON body with a single "detail" key. -/
def renderResult : HttpResult → Nat × Json
  | .ok status body => (status, body)
  | .httpError status detail => (status, .obj [("detail", .str detail)])

def digitChar (n : Nat) : Char :=
  match n % 10 with
  | 0 => '0' | 1 => '1' | 2 => '2' | 3 => '3' | 4 => '4'
  | 5 => '5' | 6 => '6' | 7 => '7' | 8 => '8' | _ => '9'

/-- The k low-order decimal digits of n, zero padded to width k, most
significant first: the %0kd formatting used by datetime.isoformat. -/
def padDigits : Nat → Nat → List Char
  | 0, _ => []
  | k + 1, n => padDigits k (n / 10) ++ [digitChar n]

/-- Characters of datetime.isoformat() for an aware UTC datetime:
YYYY-MM-DDTHH:MM:SS[.ffffff]+00:00, the fractional part omitted exactly
when microsecond is zero. -/
def isoChars (d : DateTime) : List Char :=
  padDigits 4 d.year ++
    ('-' :: (padDigits 2 d.month ++
      ('-' :: (padDigits 2 d.day ++
        ('T' :: (padDigits 2 d.hour ++
          (':' :: (padDigits 2 d.minute ++
            (':' :: (padDigits 2 d.second ++
              ((if d.microsecond = 0 then []
                else '.' :: padDigits 6 d.microsecond) ++
                ['+', '0', '0', ':', '0', '0'])))))))))))

/-- datetime.now(timezone.utc).isoformat() as used in get_profile. -/
def DateTime.isoformat (d : DateTime) : String := String.mk (isoChars d)

/-- Embedding of the /me handler get_profile (src/main.py lines 88-128).
The try block fetches the fact, formats the current UTC timestamp, and
returns a JSONResponse with the four-field body; the except clause turns
any unexpected internal error, modelled by the internalError flag, into an
HTTPException with status 500 and detail "Internal server error".  The
fact fetch itself never contributes to the except path because
fetch_cat_fact is total. -/
def get_profile (cfg : Config) (now : DateTime) (u : Upstream)
    (internalError : Bool) : HttpResult :=
  if internalError then .httpError 500 "Internal server error"
  else
    .ok 200 (.obj
      [("status", .str "success"),
       ("user", .obj
         [("email", .str cfg.USER_EMAIL),
          ("name", .str cfg.USER_NAME),
          ("stack", .str cfg.USER_STACK)]),
       ("timestamp", .str now.isoformat),
       ("fact", fetch_cat_fact u)])

/-- A top-level field of the body of a successful result. -/
def field (r : HttpResult) (key : String) : Option Json :=
  match r with
  | .ok _ body => jsonLookup body key
  | .httpError _ _ => none

/-- Whether a JSON value is a string. -/
def isStr : Json → Bool
  | .str _ => true
  | _ => false

/-- Whether a JSON value is a non-empty string. -/
def isNonEmptyStr : Json → Bool
  | .str s => !s.isEmpty
  | _ => false

/-- The upstream outcomes on which fetch_cat_fact reaches the data.get
line with a present "fact" key and returns its raw value: a delivered
response with a 2xx status whose body parses to a JSON object containing a
"fact" binding. -/
def factPassthrough : Upstream → Option Json
  | .response status (.json (.obj fields)) =>
    if is2xx status then lookupField fields "fact" else none
  | _ => none

/-- The upstream outcomes on which the try body of fetch_cat_fact does not
reach the data.get line: timeout, pre-response exception, non-2xx status,
a body that fails to parse, or a parsed body that is not an object. -/
def isUpstreamFailure : Upstream → Bool
  | .timeout => true
  | .netError => true
  | .response status body =>
    !is2xx status ||
      (match body with
       | .json (.obj _) => false
       | .json _ => true
       | .malformed => true)

/-- Whether all four top-level keys of a profile response body are
present. -/
def hasAllFourFields (b : Json) : Bool :=
  (jsonLookup b "status").isSome && (jsonLookup b "user").isSome &&
    (jsonLookup b "timestamp").isSome && (jsonLookup b "fact").isSome

/-- A fixed clock reading used to state concrete facts about responses. -/
def sampleNow : DateTime := ⟨2025, 1, 1, 0, 0, 0, 0⟩

/-- Gregorian leap-year rule. -/
def isLeap (y : Nat) : Bool := (y % 4 == 0 && y % 100 != 0) || y % 400 == 0

/-- Length of a calendar month. -/
def daysInMonth (y m : Nat) : Nat :=
  if m = 2 then (if isLeap y then 29 else 28)
  else if m = 4 ∨ m = 6 ∨ m = 9 ∨ m = 11 then 30
  else 31

/-- The field ranges datetime enforces on construction, so every reading
of datetime.now(timezone.utc) satisfies them: years 1..9999, calendar
month and day, and sub-day fields within their units. -/
def DateTime.Valid (d : DateTime) : Prop :=
  1 ≤ d.year ∧ d.year ≤ 9999 ∧ 1 ≤ d.month ∧ d.month ≤ 12 ∧
    1 ≤ d.day ∧ d.day ≤ daysInMonth d.year d.month ∧
    d.hour ≤ 23 ∧ d.minute ≤ 59 ∧ d.second ≤ 59 ∧ d.microsecond ≤ 999999

instance (d : DateTime) : Decidable d.Valid := by
  unfold DateTime.Valid
  infer_instance

/-- Decimal value of a digit character. -/
def digitVal (c : Char) : Nat := c.toNat - 48

/-- Decimal value of a digit string, most significant first, folded onto
an accumulator. -/
def readVal (acc : Nat) (cs : List Char) : Nat :=
  cs.foldl (fun a c => a * 10 + digitVal c) acc

/-- Read exactly k decimal digits from the front of the input, as
datetime.fromisoformat does for each fixed-width field. -/
def readFixed (k : Nat) (cs : List Char) : Option (Nat × List Char) :=
  let pre := cs.take k
  if pre.length == k && pre.all Char.isDigit then
    some (readVal 0 pre, cs.drop k)
  else none

/-- Require one specific character at the front of the input. -/
def expectChar (c : Char) : List Char → Option (List Char)
  | [] => none
  | x :: xs => if x = c then some xs else none

/-- The optional fractional-seconds part: a dot followed by six digits, or
nothing. -/
def parseFrac : List Char → Option (Nat × List Char)
  | [] => some (0, [])
  | c :: rest => if c = '.' then readFixed 6 rest else some (0, c :: rest)

/-- The calendar-date prefix YYYY-MM-DD: year, month and day fields with
their separators. -/
def parseYMD (cs : List Char) : Option (Nat × Nat × Nat × List Char) :=
  (readFixed 4 cs).bind fun yp =>
  (expectChar '-' yp.2).bind fun cs2 =>
  (readFixed 2 cs2).bind fun mop =>
  (expectChar '-' mop.2).bind fun cs4 =>
  (readFixed 2 cs4).bind fun dap =>
  some (yp.1, mop.1, dap.1, dap.2)

/-- The time-of-day segment HH:MM:SS: hour, minute and second fields with
their separators. -/
def parseHMS (cs : List Char) : Option (Nat × Nat × Nat × List Char) :=
  (readFixed 2 cs).bind fun hhp =>
  (expectChar ':' hhp.2).bind fun cs2 =>
  (readFixed 2 cs2).bind fun mip =>
  (expectChar ':' mip.2).bind fun cs4 =>
  (readFixed 2 cs4).bind fun sep =>
  some (hhp.1, mip.1, sep.1, sep.2)

/-- The UTC offset suffix: exactly the text of offset +00:00 and then the
end of the input. -/
def parseOffsetEnd : List Char → Option Unit
  | ['+', '0', '0', ':', '0', '0'] => some ()
  | _ => none

/-- Model of datetime.fromisoformat on the timestamp family the service
emits: YYYY-MM-DDTHH:MM:SS[.ffffff]+00:00, with the same field-range
validation the datetime constructor performs.  A string is accepted
exactly when it denotes a valid aware UTC datetime in this format. -/
def parseIsoChars (cs : List Char) : Option DateTime :=
  (parseYMD cs).bind fun a =>
  (expectChar 'T' a.2.2.2).bind fun cs2 =>
  (parseHMS cs2).bind fun b =>
  (parseFrac b.2.2.2).bind fun c =>
  (parseOffsetEnd c.2).bind fun _ =>
  (fun d : DateTime => if d.Valid then some d else none)
    ⟨a.1, a.2.1, a.2.2.1, b.1, b.2.1, b.2.2.1, c.1⟩

/-- Parse a timestamp string as an aware UTC datetime. -/
def parseIso (s : String) : Option DateTime := parseIsoChars s.data

/-- Days of year y that precede the first day of month m. -/
def daysBeforeMonth (y m : Nat) : Nat :=
  let base :=
    match m with
    | 1 => 0 | 2 => 31 | 3 => 59 | 4 => 90 | 5 => 120 | 6 => 151
    | 7 => 181 | 8 => 212 | 9 => 243 | 10 => 273 | 11 => 304 | _ => 334
  if 3 ≤ m then (if isLeap y then base + 1 else base) else base

/-- Days that precede January 1 of year y, counted from year 1. -/
def daysBeforeYear (y : Nat) : Nat :=
  let n := y - 1
  365 * n + n / 4 + n / 400 - n / 100

/-- Absolute day number of a clock reading. -/
def toDayNumber (d : DateTime) : Nat :=
  daysBeforeYear d.year + daysBeforeMonth d.year d.month + (d.day - 1)

/-- A clock reading as a count of microseconds on an absolute axis: the
chronological measure under which clock separation and monotonicity are
stated. -/
def toMicros (d : DateTime) : Nat :=
  (((toDayNumber d * 24 + d.hour) * 60 + d.minute) * 60 + d.second)
      * 1000000
    + d.microsecond

/-- C3: on a 2xx upstream response whose body parses to a JSON object with
a "fact" binding, fetch_cat_fact returns exactly that binding's value, and
the /me response's fact field carries it. -/
theorem fetch_success_returns_fact (cfg : Config) (now : DateTime)
    (status : Nat) (fields : List (String × Json)) (v : Json)
    (h2 : is2xx status = true) (hv : lookupField fields "fact" = some v) :
    fetch_cat_fact (.response status (.json (.obj fields))) = v ∧
      field (get_profile cfg now (.response status (.json (.obj fields)))
        false) "fact" = some v := by
  constructor
  · simp [fetch_cat_fact, h2, hv]
  · simp [get_profile, field, jsonLookup, lookupField, fetch_cat_fact, h2, hv]

/-- Witness for C3 at the concrete upstream body given in the spec. -/
theorem fetch_success_returns_fact_witness :
    fetch_cat_fact (.response 200 (.json (.obj
      [("fact", .str "Cats sleep 70% of their lives.")]))) =
      .str "Cats sleep 70% of their lives." ∧
    field (get_profile defaultConfig sampleNow (.response 200 (.json (.obj
      [("fact", .str "Cats sleep 70% of their lives.")]))) false) "fact" =
      some (.str "Cats sleep 70% of their lives.") :=
  fetch_success_returns_fact defaultConfig sampleNow 200
    [("fact", .str "Cats sleep 70% of their lives.")]
    (.str "Cats sleep 70% of their lives.") (by decide)
    (by simp [lookupField])

/-- C4: a 200 response with parseable body lacking the "fact" key makes
fetch_cat_fact return the literal default, and the /me fact field carries
it. -/
theorem fetch_missing_fact_default (cfg : Config) (now : DateTime) :
    fetch_cat_fact (.response 200 (.json (.obj []))) =
      .str "No cat fact available" ∧
    field (get_profile cfg now (.response 200 (.json (.obj []))) false)
      "fact" = some (.str "No cat fact available") := by
  constructor
  · rfl
  · simp [get_profile, field, jsonLookup, lookupField, fetch_cat_fact, is2xx]

/-- C5: a timeout of the upstream call makes fetch_cat_fact return the
fixed timeout fallback, and the /me fact field carries it. -/
theorem fetch_timeout_fallback (cfg : Config) (now : DateTime) :
    fetch_cat_fact .timeout = .str "Cat fact unavailable: API timeout" ∧
    field (get_profile cfg now .timeout false) "fact" =
      some (.str "Cat fact unavailable: API timeout") := by
  constructor
  · rfl
  · simp [get_profile, field, jsonLookup, lookupField, fetch_cat_fact]

/-- C6: a delivered upstream response with a non-2xx status makes
fetch_cat_fact return the fixed API-error fallback whatever the body, and
the /me fact field carries it. -/
theorem fetch_status_error_fallback (cfg : Config) (now : DateTime)
    (status : Nat) (body : Body) (h : is2xx status = false) :
    fetch_cat_fact (.response status body) =
      .str "Cat fact unavailable: API error" ∧
    field (get_profile cfg now (.response status body) false) "fact" =
      some (.str "Cat fact unavailable: API error") := by
  constructor
  · simp [fetch_cat_fact, h]
  · simp [get_profile, field, jsonLookup, lookupField, fetch_cat_fact, h]

/-- Witness for C6 at the concrete status 503 given in the spec. -/
theorem fetch_status_error_fallback_witness :
    fetch_cat_fact (.response 503 (.json (.obj []))) =
      .str "Cat fact unavailable: API error" ∧
    field (get_profile defaultConfig sampleNow
      (.response 503 (.json (.obj []))) false) "fact" =
      some (.str "Cat fact unavailable: API error") :=
  fetch_status_error_fallback defaultConfig sampleNow 503 (.json (.obj []))
    (by decide)

/-- C7: every failure that is neither a timeout nor a status error — a
pre-response network exception, a 2xx response whose body does not parse,
or a 2xx response whose parsed body is not a JSON object — makes
fetch_cat_fact return the fixed network-error fallback. -/
theorem fetch_other_error_fallback (status : Nat) (j : Json)
    (h2 : is2xx status = true)
    (hnotobj : ∀ fields, j ≠ .obj fields) :
    fetch_cat_fact .netError = .str "Cat fact unavailable: Network error" ∧
    fetch_cat_fact (.response status .malformed) =
      .str "Cat fact unavailable: Network error" ∧
    fetch_cat_fact (.response status (.json j)) =
      .str "Cat fact unavailable: Network error" := by
  refine ⟨rfl, by simp [fetch_cat_fact, h2], ?_⟩
  cases j with
  | obj fields => exact absurd rfl (hnotobj fields)
  | null => simp [fetch_cat_fact, h2]
  | bool b => simp [fetch_cat_fact, h2]
  | num n => simp [fetch_cat_fact, h2]
  | str s => simp [fetch_cat_fact, h2]
  | arr xs => simp [fetch_cat_fact, h2]

/-- Witness for C7 at status 200 with a parsed non-object body. -/
theorem fetch_other_error_fallback_witness :
    fetch_cat_fact .netError = .str "Cat fact unavailable: Network error" ∧
    fetch_cat_fact (.response 200 .malformed) =
      .str "Cat fact unavailable: Network error" ∧
    fetch_cat_fact (.response 200 (.json (.arr []))) =
      .str "Cat fact unavailable: Network error" :=
  fetch_other_error_fallback 200 (.arr []) (by decide)
    (fun fields h => by cases h)

/-- C10: the value bound to "fact" in a 2xx parsed object body is returned
unchanged, with no type or non-emptiness validation: the empty string
passes through as an empty string, null passes through as null (not a
string), and a number passes through as a number. -/
theorem fetch_no_validation (v : Json) :
    fetch_cat_fact (.response 200 (.json (.obj [("fact", v)]))) = v ∧
    fetch_cat_fact (.response 200 (.json (.obj [("fact", .str "")]))) =
      .str "" ∧
    isNonEmptyStr (fetch_cat_fact (.response 200 (.json (.obj
      [("fact", .str "")])))) = false ∧
    fetch_cat_fact (.response 200 (.json (.obj [("fact", .null)]))) =
      .null ∧
    isStr (fetch_cat_fact (.response 200 (.json (.obj
      [("fact", .num 42)])))) = false := by
  constructor
  · simp [fetch_cat_fact, is2xx, lookupField]
  · exact ⟨rfl, rfl, rfl, rfl⟩

/-- C8: for every internal-error disposition, the rendered /me result is
either exactly the generic 500 detail body or a 200 with a body carrying
all four top-level fields; the internal-error path renders exactly the
generic 500. -/
theorem get_profile_complete_or_500 (cfg : Config) (now : DateTime)
    (u : Upstream) (internalError : Bool) :
    renderResult (get_profile cfg now u true) =
      (500, .obj [("detail", .str "Internal server error")]) ∧
    (renderResult (get_profile cfg now u internalError) =
        (500, .obj [("detail", .str "Internal server error")]) ∨
      ∃ b, renderResult (get_profile cfg now u internalError) = (200, b) ∧
        hasAllFourFields b = true) := by
  constructor
  · rfl
  · cases internalError with
    | true => exact Or.inl rfl
    | false =>
      refine Or.inr ⟨_, rfl, ?_⟩
      simp [hasAllFourFields, jsonLookup, lookupField]

/-- C1 as stated is false: a 200 upstream response with body binding
"fact" to null yields a /me response whose fact field is present but null,
hence neither non-null nor a non-empty string. -/
theorem get_profile_fact_nonempty_cex :
    field (get_profile defaultConfig sampleNow
      (.response 200 (.json (.obj [("fact", .null)]))) false) "fact" =
      some .null ∧
    isNonEmptyStr .null = false ∧ isStr .null = false := by
  refine ⟨?_, rfl, rfl⟩
  simp [get_profile, field, jsonLookup, lookupField, fetch_cat_fact, is2xx]

/-- On every upstream outcome that is not a passthrough of an
upstream-supplied "fact" value, fetch_cat_fact produces a non-empty
string: one of the three failure fallbacks or the missing-key default. -/
theorem factFallback_nonempty (u : Upstream)
    (hnone : factPassthrough u = none) :
    isNonEmptyStr (fetch_cat_fact u) = true := by
  cases u with
  | timeout => rfl
  | netError => rfl
  | response status body =>
    by_cases h2 : is2xx status = true
    · cases body with
      | malformed => simp only [fetch_cat_fact, h2, if_true]; rfl
      | json j =>
        cases j with
        | obj fields =>
          cases hv : lookupField fields "fact" with
          | some v =>
            exfalso
            simp [factPassthrough, h2, hv] at hnone
          | none => simp only [fetch_cat_fact, h2, if_true, hv]; rfl
        | null => simp only [fetch_cat_fact, h2, if_true]; rfl
        | bool b => simp only [fetch_cat_fact, h2, if_true]; rfl
        | num n => simp only [fetch_cat_fact, h2, if_true]; rfl
        | str s => simp only [fetch_cat_fact, h2, if_true]; rfl
        | arr xs => simp only [fetch_cat_fact, h2, if_true]; rfl
    · have h2f : is2xx status = false := by rwa [Bool.not_eq_true] at h2
      simp only [fetch_cat_fact, h2f]
      rfl

/-- C1 amended: for every upstream outcome the /me success response has
all four top-level fields present, status "success", user the configured
profile, timestamp the formatted clock reading, and fact the value
fetch_cat_fact produced; that value is a non-empty string on every outcome
except the unvalidated passthrough of an upstream-supplied "fact" value. -/
theorem get_profile_response_invariant (cfg : Config) (now : DateTime)
    (u : Upstream) :
    field (get_profile cfg now u false) "status" = some (.str "success") ∧
    field (get_profile cfg now u false) "user" = some (.obj
      [("email", .str cfg.USER_EMAIL), ("name", .str cfg.USER_NAME),
       ("stack", .str cfg.USER_STACK)]) ∧
    field (get_profile cfg now u false) "timestamp" =
      some (.str now.isoformat) ∧
    field (get_profile cfg now u false) "fact" =
      some (fetch_cat_fact u) ∧
    (isNonEmptyStr (fetch_cat_fact u) || (factPassthrough u).isSome) =
      true := by
  refine ⟨?_, ?_, ?_, ?_, ?_⟩
  · simp [get_profile, field, jsonLookup, lookupField]
  · simp [get_profile, field, jsonLookup, lookupField]
  · simp [get_profile, field, jsonLookup, lookupField]
  · simp [get_profile, field, jsonLookup, lookupField]
  · cases hp : factPassthrough u with
    | some v => simp
    | none => simp [factFallback_nonempty u hp]

/-- C2 as stated is false: on a 200 response binding "fact" to the number
7, fetch_cat_fact returns that number, which is not a string. -/
theorem fetch_returns_nonstring_cex :
    fetch_cat_fact (.response 200 (.json (.obj [("fact", .num 7)]))) =
      .num 7 ∧
    isStr (fetch_cat_fact (.response 200 (.json (.obj
      [("fact", .num 7)])))) = false := by
  exact ⟨rfl, rfl⟩

/-- C2 amended: fetch_cat_fact is total — every upstream outcome yields a
value, never a caller-visible error — and on every upstream failure (any
outcome on which the try body does not reach the data.get line) the value
is one of the three fixed non-empty fallback strings. -/
theorem fetch_failures_are_fallback_strings (u : Upstream)
    (h : isUpstreamFailure u = true) :
    fetch_cat_fact u = .str "Cat fact unavailable: API timeout" ∨
    fetch_cat_fact u = .str "Cat fact unavailable: API error" ∨
    fetch_cat_fact u = .str "Cat fact unavailable: Network error" := by
  cases u with
  | timeout => exact Or.inl rfl
  | netError => exact Or.inr (Or.inr rfl)
  | response status body =>
    by_cases h2 : is2xx status = true
    · cases body with
      | malformed => exact Or.inr (Or.inr (by simp [fetch_cat_fact, h2]))
      | json j =>
        cases j with
        | obj fields =>
          exfalso
          simp [isUpstreamFailure, h2] at h
        | null => exact Or.inr (Or.inr (by simp [fetch_cat_fact, h2]))
        | bool b => exact Or.inr (Or.inr (by simp [fetch_cat_fact, h2]))
        | num n => exact Or.inr (Or.inr (by simp [fetch_cat_fact, h2]))
        | str s => exact Or.inr (Or.inr (by simp [fetch_cat_fact, h2]))
        | arr xs => exact Or.inr (Or.inr (by simp [fetch_cat_fact, h2]))
    · rw [Bool.not_eq_true] at h2
      exact Or.inr (Or.inl (by simp [fetch_cat_fact, h2]))

/-- Witness for C2 amended at the timeout outcome. -/
theorem fetch_failures_are_fallback_strings_witness :
    fetch_cat_fact .timeout = .str "Cat fact unavailable: API timeout" ∨
    fetch_cat_fact .timeout = .str "Cat fact unavailable: API error" ∨
    fetch_cat_fact .timeout = .str "Cat fact unavailable: Network error" :=
  fetch_failures_are_fallback_strings .timeout (by decide)

/-- The decimal value of the digit character for n is n mod 10. -/
theorem digitVal_digitChar (n : Nat) : digitVal (digitChar n) = n % 10 := by
  unfold digitChar
  have h : n % 10 < 10 := Nat.mod_lt _ (by omega)
  generalize hg : n % 10 = r at h ⊢
  interval_cases r <;> decide

/-- Digit characters are digits. -/
theorem isDigit_digitChar (n : Nat) : (digitChar n).isDigit = true := by
  unfold digitChar
  have h : n % 10 < 10 := Nat.mod_lt _ (by omega)
  generalize hg : n % 10 = r at h ⊢
  interval_cases r <;> decide

/-- Zero-padded formatting produces exactly k characters. -/
theorem length_padDigits (k n : Nat) : (padDigits k n).length = k := by
  induction k generalizing n with
  | zero => rfl
  | succ k ih => simp [padDigits, ih]

/-- Zero-padded formatting produces only digit characters. -/
theorem all_isDigit_padDigits (k n : Nat) :
    (padDigits k n).all Char.isDigit = true := by
  induction k generalizing n with
  | zero => rfl
  | succ k ih => simp [padDigits, List.all_append, ih, isDigit_digitChar]

/-- Reading digits distributes over list concatenation. -/
theorem readVal_append (a : Nat) (xs ys : List Char) :
    readVal a (xs ++ ys) = readVal (readVal a xs) ys := by
  simp [readVal, List.foldl_append]

/-- Reading back the k-digit zero-padded form of n recovers n mod 10^k on
top of the shifted accumulator. -/
theorem readVal_padDigits (k a n : Nat) :
    readVal a (padDigits k n) = a * 10 ^ k + n % 10 ^ k := by
  induction k generalizing a n with
  | zero => simp [padDigits, readVal, Nat.mod_one]
  | succ k ih =>
    rw [padDigits, readVal_append, ih]
    simp only [readVal, List.foldl_cons, List.foldl_nil, digitVal_digitChar]
    rw [pow_succ]
    generalize 10 ^ k = p
    have h : n % (10 * p) = n % 10 + 10 * (n / 10 % p) := Nat.mod_mul
    rw [Nat.mul_comm p 10, h]
    ring

/-- A fixed-width read of the zero-padded form of n recovers n and leaves
the rest of the input, provided n fits in the width. -/
theorem readFixed_padDigits (k n : Nat) (h : n < 10 ^ k)
    (rest : List Char) :
    readFixed k (padDigits k n ++ rest) = some (n, rest) := by
  simp only [readFixed, List.take_left' (length_padDigits k n),
    List.drop_left' (length_padDigits k n), length_padDigits,
    all_isDigit_padDigits, beq_self_eq_true, Bool.and_self, if_true,
    readVal_padDigits, Nat.zero_mul, Nat.zero_add, Nat.mod_eq_of_lt h]

/-- Requiring the character that is in fact at the front succeeds. -/
theorem expectChar_cons (c : Char) (rest : List Char) :
    expectChar c (c :: rest) = some rest := by
  simp [expectChar]

/-- The fractional part accepts a dot and six digits. -/
theorem parseFrac_dot (us : Nat) (h : us < 10 ^ 6) (rest : List Char) :
    parseFrac ('.' :: (padDigits 6 us ++ rest)) = some (us, rest) := by
  simp [parseFrac, readFixed_padDigits 6 us h]

/-- The fractional part is absent when the offset sign follows at once. -/
theorem parseFrac_noDot (rest : List Char) :
    parseFrac ('+' :: rest) = some (0, '+' :: rest) := by
  simp [parseFrac]

/-- The offset suffix accepts exactly the emitted UTC offset text. -/
theorem parseOffsetEnd_utc :
    parseOffsetEnd ['+', '0', '0', ':', '0', '0'] = some () := rfl

/-- Parsing the formatted calendar-date prefix recovers its fields. -/
theorem parseYMD_pad (y mo da : Nat) (hy : y < 10 ^ 4)
    (hmo : mo < 10 ^ 2) (hda : da < 10 ^ 2) (rest : List Char) :
    parseYMD (padDigits 4 y ++
        ('-' :: (padDigits 2 mo ++ ('-' :: (padDigits 2 da ++ rest))))) =
      some (y, mo, da, rest) := by
  simp [parseYMD, readFixed_padDigits 4 y hy, expectChar_cons,
    readFixed_padDigits 2 mo hmo, readFixed_padDigits 2 da hda]

/-- Parsing the formatted time-of-day segment recovers its fields. -/
theorem parseHMS_pad (hh mi se : Nat) (hhh : hh < 10 ^ 2)
    (hmi : mi < 10 ^ 2) (hse : se < 10 ^ 2) (rest : List Char) :
    parseHMS (padDigits 2 hh ++
        (':' :: (padDigits 2 mi ++ (':' :: (padDigits 2 se ++ rest))))) =
      some (hh, mi, se, rest) := by
  simp [parseHMS, readFixed_padDigits 2 hh hhh, expectChar_cons,
    readFixed_padDigits 2 mi hmi, readFixed_padDigits 2 se hse]

/-- Round trip: the isoformat output of every valid clock reading parses
back to exactly that reading, so emitted timestamps are valid parseable
ISO-8601 UTC strings and the formatting is injective on valid readings. -/
theorem parseIso_isoformat (d : DateTime) (h : d.Valid) :
    parseIso d.isoformat = some d := by
  obtain ⟨y, mo, da, hh, mi, se, us⟩ := d
  have hb := h
  unfold DateTime.Valid at hb
  dsimp only at hb
  obtain ⟨b1, b2, b3, b4, b5, b6, b7, b8, b9, b10⟩ := hb
  have p4 : (10 : ℕ) ^ 4 = 10000 := by norm_num
  have p2 : (10 : ℕ) ^ 2 = 100 := by norm_num
  have p6 : (10 : ℕ) ^ 6 = 1000000 := by norm_num
  have hy : y < 10 ^ 4 := by rw [p4]; omega
  have hmo : mo < 10 ^ 2 := by rw [p2]; omega
  have hda : da < 10 ^ 2 := by
    have hdm : daysInMonth y mo ≤ 31 := by
      unfold daysInMonth
      split <;> try split <;> omega
    rw [p2]; omega
  have hhh : hh < 10 ^ 2 := by rw [p2]; omega
  have hmi : mi < 10 ^ 2 := by rw [p2]; omega
  have hse : se < 10 ^ 2 := by rw [p2]; omega
  have hus : us < 10 ^ 6 := by rw [p6]; omega
  show parseIsoChars (isoChars ⟨y, mo, da, hh, mi, se, us⟩) =
    some ⟨y, mo, da, hh, mi, se, us⟩
  by_cases h0 : us = 0
  · subst h0
    simp only [isoChars, eq_self_iff_true, if_true, List.nil_append]
    simp only [parseIsoChars, parseYMD_pad y mo da hy hmo hda,
      Option.some_bind, expectChar_cons,
      parseHMS_pad hh mi se hhh hmi hse, parseFrac_noDot,
      parseOffsetEnd_utc]
    simp [h]
  · simp only [isoChars, if_neg h0, List.cons_append]
    simp only [parseIsoChars, parseYMD_pad y mo da hy hmo hda,
      Option.some_bind, expectChar_cons,
      parseHMS_pad hh mi se hhh hmi hse, parseFrac_dot us hus,
      parseOffsetEnd_utc]
    simp [h]

/-- C9: two /me responses whose clock readings are at least one second
apart on a monotone clock carry timestamp fields that are each valid
parseable ISO-8601 UTC strings, are different from one another, and parse
back to readings in strictly increasing chronological order. -/
theorem get_profile_timestamps_increase (cfg : Config) (d1 d2 : DateTime)
    (u1 u2 : Upstream) (h1 : d1.Valid) (h2 : d2.Valid)
    (hsep : toMicros d1 + 1000000 ≤ toMicros d2) :
    field (get_profile cfg d1 u1 false) "timestamp" =
      some (.str d1.isoformat) ∧
    field (get_profile cfg d2 u2 false) "timestamp" =
      some (.str d2.isoformat) ∧
    parseIso d1.isoformat = some d1 ∧
    parseIso d2.isoformat = some d2 ∧
    d1.isoformat ≠ d2.isoformat ∧
    toMicros d1 < toMicros d2 := by
  refine ⟨?_, ?_, parseIso_isoformat d1 h1, parseIso_isoformat d2 h2,
    ?_, by omega⟩
  · simp [get_profile, field, jsonLookup, lookupField]
  · simp [get_profile, field, jsonLookup, lookupField]
  · intro he
    have e1 := parseIso_isoformat d1 h1
    have e2 := parseIso_isoformat d2 h2
    rw [he, e2] at e1
    injection e1 with e1
    rw [e1] at hsep
    omega

/-- Witness for C9 at two concrete readings one second apart. -/
theorem get_profile_timestamps_increase_witness :
    field (get_profile defaultConfig ⟨2025, 6, 15, 12, 0, 0, 0⟩ .timeout
        false) "timestamp" =
      some (.str (DateTime.isoformat ⟨2025, 6, 15, 12, 0, 0, 0⟩)) ∧
    field (get_profile defaultConfig ⟨2025, 6, 15, 12, 0, 1, 500000⟩
        .netError false) "timestamp" =
      some (.str (DateTime.isoformat ⟨2025, 6, 15, 12, 0, 1, 500000⟩)) ∧
    parseIso (DateTime.isoformat ⟨2025, 6, 15, 12, 0, 0, 0⟩) =
      some ⟨2025, 6, 15, 12, 0, 0, 0⟩ ∧
    parseIso (DateTime.isoformat ⟨2025, 6, 15, 12, 0, 1, 500000⟩) =
      some ⟨2025, 6, 15, 12, 0, 1, 500000⟩ ∧
    DateTime.isoformat ⟨2025, 6, 15, 12, 0, 0, 0⟩ ≠
      DateTime.isoformat ⟨2025, 6, 15, 12, 0, 1, 500000⟩ ∧
    toMicros ⟨2025, 6, 15, 12, 0, 0, 0⟩ <
      toMicros ⟨2025, 6, 15, 12, 0, 1, 500000⟩ :=
  get_profile_timestamps_increase defaultConfig
    ⟨2025, 6, 15, 12, 0, 0, 0⟩ ⟨2025, 6, 15, 12, 0, 1, 500000⟩
    .timeout .netError (by decide) (by decide) (by decide)
